import Mathlib

/-!
Verification development for the pyGameAssets style/state/transition engine
(`core.py`, `easing.py`).  Python floats are modelled exactly by `PyFloat`,
an executable unreduced-fraction rational type (the engine's arithmetic is
exact on the scenarios' decimal values), Python `int` by `ℤ`,
Python exceptions by an explicit `Except` error channel, and Python dicts
(`Style` objects, the `states` table) by insertion-ordered association lists.
The sine / exponential / circular easing curves take irrational values at
rational arguments; those are embedded separately over `ℝ`.
-/

/-- A Python value as it occurs inside a `Style` dict in `core.py`:
strings (symbolic colors, the `'auto'` rect marker), integers, booleans
(`check_rect_auto`), and lists/tuples (colors, radii, rects). -/
inductive PyVal where
  | str (s : String)
  | int (n : ℤ)
  | bool (b : Bool)
  | list (l : List PyVal)

/-- A Python dict with `String` keys, as an insertion-ordered association list
(used both for `Style` dicts and, with `PyDict` values, for `states`). -/
abbrev PyDict := List (String × PyVal)

/-- `d.get(k)`: first binding of `k`, if any. -/
def aget {α : Type} : List (String × α) → String → Option α
  | [], _ => none
  | (k', v) :: rest, k => if k' = k then some v else aget rest k

/-- `d[k] = v`: replace the binding of `k` in place, else append it
(insertion-order semantics of a Python dict). -/
def aset {α : Type} : List (String × α) → String → α → List (String × α)
  | [], k, v => [(k, v)]
  | (k', v') :: rest, k, v =>
      if k' = k then (k, v) :: rest else (k', v') :: aset rest k v

/-- `d.keys()`. -/
def akeys {α : Type} (l : List (String × α)) : List String := l.map (·.1)

/-- Python truthiness of a `PyVal` (`bool(v)`). -/
def pyTruthy : PyVal → Bool
  | .str s => s ≠ ""
  | .int n => n ≠ 0
  | .bool b => b
  | .list l => !l.isEmpty

/-- Truthiness of `d.get(k, default)` where the default is a `Bool`
(as in `style.get('check_rect_auto', True)`). -/
def truthyD (v : Option PyVal) (dflt : Bool) : Bool :=
  match v with
  | none => dflt
  | some v => pyTruthy v

/-- Exact rational arithmetic for the Python float model: an unreduced
integer fraction.  Every fraction the model builds has a positive
denominator (`ofInt` uses 1; `add`/`mul` multiply positive denominators;
`div` moves the divisor's sign into the numerator), which the comparison
and floor operations below rely on.  Unlike Mathlib's normalized `ℚ`, all
operations reduce inside the kernel, so concrete scenarios can be settled
by `rfl`/`decide`. -/
structure PyFloat where
  num : ℤ
  den : ℤ
deriving DecidableEq, Repr

/-- Embed a Python int. -/
def PyFloat.ofInt (n : ℤ) : PyFloat := ⟨n, 1⟩

instance (n : ℕ) : OfNat PyFloat n := ⟨⟨(n : ℤ), 1⟩⟩

instance : Add PyFloat :=
  ⟨fun x y => ⟨x.num * y.den + y.num * x.den, x.den * y.den⟩⟩

instance : Mul PyFloat := ⟨fun x y => ⟨x.num * y.num, x.den * y.den⟩⟩

/-- Float division (the caller checks for a zero divisor first, as Python
raises `ZeroDivisionError` there). -/
def PyFloat.div (x y : PyFloat) : PyFloat :=
  if y.num < 0 then ⟨-(x.num * y.den), x.den * (-y.num)⟩
  else ⟨x.num * y.den, x.den * y.num⟩

/-- `x <= y` by cross multiplication (positive denominators). -/
def PyFloat.le (x y : PyFloat) : Bool := x.num * y.den ≤ y.num * x.den

/-- The mathematical value of a fraction. -/
noncomputable def PyFloat.toRat (x : PyFloat) : ℚ := (x.num : ℚ) / (x.den : ℚ)

/-- Python 3 `round()` on the exact value of a fraction (positive
denominator): round half to even.  `f` is `⌊q⌋` and `r` the numerator of
`q - ⌊q⌋` over `den`, so `q - ⌊q⌋ <=> 1/2` is `2*r <=> den`. -/
def pyRound (q : PyFloat) : ℤ :=
  let f := Int.fdiv q.num q.den
  let r := q.num - f * q.den
  if 2 * r < q.den then f
  else if 2 * r > q.den then f + 1
  else if f % 2 = 0 then f else f + 1

/-- A `pygame.Rect`: integer `(x, y, w, h)`. -/
structure PRect where
  x : ℤ
  y : ℤ
  w : ℤ
  h : ℤ
deriving DecidableEq, Repr

/-- `rect[i]` for `i` in `range(4)` (the only indices `core.py` uses). -/
def PRect.get (r : PRect) : ℕ → ℤ
  | 0 => r.x
  | 1 => r.y
  | 2 => r.w
  | 3 => r.h
  | _ => 0

/-- `[*self.rect]`: the rect as a list of Python ints. -/
def PRect.toVals (r : PRect) : List PyVal :=
  [.int r.x, .int r.y, .int r.w, .int r.h]

/-- The Python exceptions raised by the engine.  `keyError`, `typeError`,
`zeroDivisionError` and `indexError` are the builtins; `incorrectColorError`
is the library's `IncorrectColorError` (from the `exceptions` module).
`invalidCurveError` is modelled from the spec: the spec's error taxonomy
(§7) postulates a dedicated `InvalidCurveError` class for unknown easing
names; no such class appears at the raise site in `core.py` (which raises the
builtin `KeyError`), and the `exceptions` module itself is not under `src/`.
The constructor exists so that the spec-level claim can be stated and compared
with the code's behaviour. -/
inductive PyErr where
  | keyError (msg : String)
  | typeError (msg : String)
  | incorrectColorError (msg : String)
  | zeroDivisionError
  | indexError
  | invalidCurveError
deriving DecidableEq, Repr

/-- Projection to the error of an `Except` result, if it is one. -/
def exErr {α : Type} : Except PyErr α → Option PyErr
  | .error e => some e
  | .ok _ => none

/-- Message of `KeyError(f"Invalid easing function: '{easing}'")` in
`Transition.__init__` (the model omits the quotes around the name). -/
def invalidEasingMsg (easing : String) : String :=
  "Invalid easing function: " ++ easing

/-- Message of `KeyError(f"{state} is not a valid state. ...")` in
`StatedSprite` (the model keeps only the leading part). -/
def invalidStateMsg (state : String) : String :=
  state ++ " is not a valid state"

/-- Message of `IncorrectColorError` in `Transition.__init__`
(the model drops the interpolated value). -/
def colorErrMsg : String :=
  "The color value must be a sequence of integers (RGB or RGBA)."

/-- `to_rgba` from `core.py`: `None` becomes transparent black; a sequence
shorter than 4 is padded with 255; `str`/`int` inputs skip the padding branch
(`type(color) not in (str, int)`), so a string becomes its tuple of
characters while `tuple(int)` raises `TypeError`.  In `Transition.__init__`
the `str`/`int` cases are unreachable: they are rejected with
`IncorrectColorError` before `to_rgba` is called. -/
def to_rgba : Option PyVal → Except PyErr (List PyVal)
  | none => .ok [.int 0, .int 0, .int 0, .int 0]
  | some (.list l) =>
      .ok (if l.length < 4 then l ++ List.replicate (4 - l.length) (.int 255) else l)
  | some (.str s) => .ok (s.data.map (fun c => .str (String.singleton c)))
  | some (.int _) => .error (.typeError "int object is not iterable")
  | some (.bool _) => .error (.typeError "object of type bool has no len")

/-- `list(radius_kwds(val, only_tuple=True))` from `core.py`:
`None` yields `{}` hence `[]`; an int is broadcast to a 4-tuple; a sequence is
returned unpadded (the `only_tuple` return happens before the padding); a
string becomes its characters; `list(bool)` raises.  (A dict input is returned
as-is in Python; dict-valued radii do not occur in the claims and `PyVal` has
no dict constructor.) -/
def radius_tuple : Option PyVal → Except PyErr (List PyVal)
  | none => .ok []
  | some (.int n) => .ok [.int n, .int n, .int n, .int n]
  | some (.list l) => .ok l
  | some (.str s) => .ok (s.data.map (fun c => .str (String.singleton c)))
  | some (.bool _) => .error (.typeError "bool object is not iterable")

/-- `[*v]`: Python iteration of a value (lists iterate to themselves,
strings to their characters, ints/bools raise `TypeError`). -/
def asList : PyVal → Except PyErr (List PyVal)
  | .list l => .ok l
  | .str s => .ok (s.data.map (fun c => .str (String.singleton c)))
  | .int _ => .error (.typeError "int object is not iterable")
  | .bool _ => .error (.typeError "bool object is not iterable")

/-- The keys of `EASING_FUNCTIONS` in `easing.py`, in dict insertion order
(the source lists the three `cubic` entries twice; a Python dict collapses
the duplicates onto the first position). -/
def EASING_NAMES : List String :=
  ["linear",
   "cubic_in", "cubic_out", "cubic_in_out",
   "quadric_in", "quadric_out", "quadric_in_out",
   "sine_in", "sine_out", "sine_in_out",
   "exponential_in", "exponential_out", "exponential_in_out",
   "circular_in", "circular_out", "circular_in_out",
   "quartic_in", "quartic_out", "quartic_in_out",
   "quintic_in", "quintic_out", "quintic_in_out"]

/-- `linear` from `easing.py`. -/
def linear (t : PyFloat) : PyFloat := t

/-- Canonical instantiation of the easing-table interpretation parameter used
by closed scenario theorems and witnesses: every name is interpreted as the
identity curve.  The scenarios below only ever tick with easing `'linear'`,
whose source definition is exactly the identity (`linear`). -/
def EASING_IMPL0 : String → PyFloat → PyFloat := fun _ => linear

/-- Error raised by `math.sqrt` on a negative argument
(`ValueError: math domain error`). -/
inductive MathErr where
  | domainError
deriving DecidableEq, Repr

open scoped Classical in
/-- `CircIn` from `easing.py`: `1 - math.sqrt(1 - t*t)`.  `math.sqrt` raises
a math domain error exactly when its argument is negative, which happens for
`|t| > 1` (the source carries a `FIXME: math domain error` comment here). -/
noncomputable def CircIn (t : ℝ) : Except MathErr ℝ :=
  if 1 - t * t < 0 then .error .domainError
  else .ok (1 - Real.sqrt (1 - t * t))

open scoped Classical in
/-- `CircOut` from `easing.py`: `t -= 1; return math.sqrt(1 - t*t)`
(the decrement is inlined as `t - 1`). -/
noncomputable def CircOut (t : ℝ) : Except MathErr ℝ :=
  if 1 - (t - 1) * (t - 1) < 0 then .error .domainError
  else .ok (Real.sqrt (1 - (t - 1) * (t - 1)))

open scoped Classical in
/-- `CircInOut` from `easing.py`: `t *= 2`; first half uses the `in` formula,
second half `t -= 2` then the `out` formula (both inlined). -/
noncomputable def CircInOut (t : ℝ) : Except MathErr ℝ :=
  if 2 * t < 1 then
    if 1 - (2 * t) * (2 * t) < 0 then .error .domainError
    else .ok (-(Real.sqrt (1 - (2 * t) * (2 * t)) - 1) / 2)
  else
    if 1 - (2 * t - 2) * (2 * t - 2) < 0 then .error .domainError
    else .ok ((Real.sqrt (1 - (2 * t - 2) * (2 * t - 2)) + 1) / 2)

/-- `ExpoIn` from `easing.py`: `math.pow(2, 10 * (t - 1))`. -/
noncomputable def ExpoIn (t : ℝ) : ℝ := (2 : ℝ) ^ (10 * (t - 1))

/-- `ExpoOut` from `easing.py`: `-math.pow(2, -10 * t) + 1`. -/
noncomputable def ExpoOut (t : ℝ) : ℝ := -((2 : ℝ) ^ (-10 * t)) + 1

open scoped Classical in
/-- `ExpoInOut` from `easing.py`: `t *= 2`; if `t < 1` return
`math.pow(2, 10*(t-1)) / 2`, else `t -= 1; return -math.pow(2, -10*t) - 1`
(substituting `t = 2*t₀` resp. `t = 2*t₀ - 1`; the source carries a
`FIXME: too large walues` comment here). -/
noncomputable def ExpoInOut (t : ℝ) : ℝ :=
  if 2 * t < 1 then (2 : ℝ) ^ (10 * (2 * t - 1)) / 2
  else -((2 : ℝ) ^ (-10 * (2 * t - 1))) - 1

/-- The color-valued style keys (`('bg','fg','border','text_color')`). -/
def colorKeys : List String := ["bg", "fg", "border", "text_color"]

/-- The radius-valued style keys (`('border_radius','fg_radius')`). -/
def radiusKeys : List String := ["border_radius", "fg_radius"]

/-- The keys interpolated by `Transition.tick`
(`('bg','fg','border','text_color','border_radius','fg_radius','rect')`). -/
def interpKeys : List String :=
  ["bg", "fg", "border", "text_color", "border_radius", "fg_radius", "rect"]

/-- State of a `Transition` object (`core.py`, class `Transition`).
`easing_func` holds the function object looked up in `EASING_FUNCTIONS`, as
in the source; the rational model receives its interpretation from the
`impl` parameter of `Transition.init`. -/
structure TransitionState where
  finished : Bool
  time : PyFloat
  current_time : PyFloat
  easing_func : PyFloat → PyFloat
  style_keys : List String
  style1 : PyDict
  style2 : PyDict
  style : PyDict

/-- One iteration of the normalization loop of `Transition.__init__`
(`for key in self.style_keys`), acting on `(style1, style2, _to_remove)`:
keys absent from `style2` are marked for removal; color keys reject
symbolic (`str`/`int`) values with `IncorrectColorError` and are rewritten
through `to_rgba`; radius keys are rewritten through
`list(radius_kwds(·, True))`. -/
def normStep (st : PyDict × PyDict × List String) (key : String) :
    Except PyErr (PyDict × PyDict × List String) := do
  let (s1d, s2d, rem) := st
  let s1 := aget s1d key
  let s2 := aget s2d key
  match s2 with
  | none => pure (s1d, s2d, rem ++ [key])
  | some _ =>
    if key ∈ colorKeys then do
      match s1 with
      | some (.str _) => throw (.incorrectColorError colorErrMsg)
      | some (.int _) => throw (.incorrectColorError colorErrMsg)
      | _ => pure ()
      match s2 with
      | some (.str _) => throw (.incorrectColorError colorErrMsg)
      | some (.int _) => throw (.incorrectColorError colorErrMsg)
      | _ => pure ()
      let c1 ← to_rgba s1
      let c2 ← to_rgba s2
      pure (aset s1d key (.list c1), aset s2d key (.list c2), rem)
    else if key ∈ radiusKeys then do
      let r1 ← radius_tuple s1
      let r2 ← radius_tuple s2
      pure (aset s1d key (.list r1), aset s2d key (.list r2), rem)
    else
      pure (s1d, s2d, rem)

/-- The style-processing block of `Transition.__init__` (everything after the
easing lookup): key selection and normalization.  `varargs` is the tuple of
positional `*style_keys` arguments: `set(*varargs)` is the empty set for no
arguments, the element set of a single iterable argument, and a `TypeError`
for two or more; `StatedSprite.transition` always passes its own (possibly
empty) keys tuple as a single positional argument.  Returns the final
`style_keys`, `style1` and `style2` (the copies, after normalization). -/
def Transition.initStyles (style1 style2 : PyDict) (varargs : List (List String))
    (_all : Bool) : Except PyErr (List String × PyDict × PyDict) := do
  let keys0 ← match varargs with
    | [] => pure ([] : List String)
    | [ks] => pure ks.dedup
    | _ => throw (.typeError "set expected at most 1 argument")
  let keys := if _all then (akeys style1 ++ akeys style2).dedup
    else if varargs.isEmpty then (akeys style2).dedup
    else keys0
  let (s1, s2, rem) ← keys.foldlM normStep (style1, style2, ([] : List String))
  pure (keys.filter (· ∉ rem), s1, s2)

/-- `Transition.__init__` from `core.py`, for a string-valued `easing`
argument (all library call sites pass a string; the source's `Callable`
branch compares `type(easing) is Callable`, which no function object
satisfies, so a non-string argument always raises `TypeError`).  An unknown
easing name raises `KeyError`.  `impl` interprets the function objects stored
in `EASING_FUNCTIONS` as rational curves; closed scenarios use `EASING_IMPL0`
and only ever evaluate the `'linear'` entry. -/
def Transition.init (impl : String → PyFloat → PyFloat) (time : PyFloat) (style1 style2 : PyDict)
    (varargs : List (List String)) (_all : Bool) (easing : String) :
    Except PyErr TransitionState := do
  if easing ∈ EASING_NAMES then do
    let (keys, s1, s2) ← Transition.initStyles style1 style2 varargs _all
    pure { finished := false, time := time, current_time := 0,
           easing_func := impl easing, style_keys := keys,
           style1 := s1, style2 := s2, style := s1 }
  else
    throw (.keyError (invalidEasingMsg easing))

/-- A numeric Python value for the `-`/`*`/`+` arithmetic inside
`Transition.tick` (`bool` arithmetic coerces to 0/1; strings and lists
raise `TypeError`). -/
def pyNum : PyVal → Except PyErr ℤ
  | .int n => .ok n
  | .bool b => .ok (if b then 1 else 0)
  | .str _ => .error (.typeError "unsupported operand type for -")
  | .list _ => .error (.typeError "unsupported operand type for -")

/-- `l[i]` with Python `IndexError` semantics. -/
def pyIndex (l : List PyVal) (i : ℕ) : Except PyErr PyVal :=
  match l.get? i with
  | some v => .ok v
  | none => .error .indexError

/-- Iteration `i` of the inner `for i in range(4)` loop of `Transition.tick`:
`diff = s2_val[i] - s1_val[i]`, then the interpolated component
`round(s1_val[i] + diff * progress)` is written back, additionally clamped
with `min(max(·, 0), 255)` for color keys.  `s1_val[i]` is read from the list
being updated, exactly as in the source (where `self.style[key]` is the very
list `self.style1[key]`, because `self.style = self.style1.copy()` is a
shallow copy). -/
def interpStep (progress : PyFloat) (isColor : Bool) (s2 : List PyVal)
    (l : List PyVal) (i : ℕ) : Except PyErr (List PyVal) := do
  let a ← pyNum (← pyIndex l i)
  let b ← pyNum (← pyIndex s2 i)
  let diff := b - a
  let v := pyRound (PyFloat.ofInt a + PyFloat.ofInt diff * progress)
  let v := if isColor then min (max v 0) 255 else v
  pure (l.set i (.int v))

/-- The four component updates of one interpolated key. -/
def interpList (progress : PyFloat) (isColor : Bool) (s1 s2 : List PyVal) :
    Except PyErr (List PyVal) :=
  (List.range 4).foldlM (interpStep progress isColor s2) s1

/-- `Transition.tick` from `core.py`: advance `current_time`, compute
`progress = easing_func(current_time / time)` (a `ZeroDivisionError` when
`time == 0`), interpolate every selected key in the seven-key tuple, and set
`finished` once `current_time >= time`.  Because `self.style` is a shallow
copy of `self.style1`, the element assignments to `self.style[key][i]` mutate
the shared lists: the model writes the updated list into both `style` and
`style1`. -/
def TransitionState.tick (t : TransitionState) (delta_time : PyFloat) :
    Except PyErr TransitionState := do
  let ct := t.current_time + delta_time
  if t.time.num = 0 then throw .zeroDivisionError
  let progress := t.easing_func (ct.div t.time)
  let step := fun (st : PyDict × PyDict) (key : String) => do
    let (st1, st) := st
    let s1 ← match aget st1 key with
      | some v => pure v
      | none => throw (PyErr.keyError key)
    let s2 ← match aget t.style2 key with
      | some v => pure v
      | none => throw (PyErr.keyError key)
    if key ∈ interpKeys then do
      let l1 ← match s1 with
        | .list l => pure l
        | _ => throw (PyErr.typeError "object is not subscriptable")
      let l2 ← match s2 with
        | .list l => pure l
        | _ => throw (PyErr.typeError "object is not subscriptable")
      let lnew ← interpList progress (key ∈ colorKeys) l1 l2
      pure (aset st1 key (.list lnew), aset st key (.list lnew))
    else
      pure (st1, st)
  let (st1, st) ← t.style_keys.foldlM step (t.style1, t.style)
  pure { t with current_time := ct, style1 := st1, style := st,
                finished := if t.time.le ct then true else t.finished }

/-- A sequence of `tick` calls. -/
def tickSeq (t : TransitionState) (ds : List PyFloat) : Except PyErr TransitionState :=
  ds.foldlM (fun t d => t.tick d) t

/-- State of a `StatedSprite` (`core.py`).  `rendered` records the style dict
last handed to `_construct`, i.e. the input of the abstract render capability
(the pygame drawing itself is outside the core per the spec's scope); the
claims observe the sprite's rendered appearance through it.  `core.py`'s
`change_style` can make `self.style` alias a `states` entry; the model treats
`style` as a value (none of the claim scenarios mutate `self.style` while it
aliases a `states` entry). -/
structure SpriteState where
  rect : PRect
  states : List (String × PyDict)
  selected_state : Option String
  style : PyDict
  _transition : Option TransitionState
  rendered : Option PyDict

/-- The `state` argument of `change_style`/`construct`
(`str | Style | None`). -/
inductive StyleArg where
  | name (s : String)
  | sty (d : PyDict)
  | null

/-- `StatedSprite.change_style` from `core.py`: for a string, an unknown or
empty (falsy) state raises `KeyError`, `selected_state` is set
unconditionally and `self.style` only when `change_selected`; for `None` the
style is cleared; for a dict the style is replaced; in the latter two cases
`selected_state` becomes `None` only when `change_selected`. -/
def SpriteState.change_style (e : SpriteState) (state : StyleArg)
    (change_selected : Bool) : Except PyErr SpriteState :=
  match state with
  | .name s =>
      match aget e.states s with
      | none => .error (.keyError (invalidStateMsg s))
      | some d =>
          if d.isEmpty then .error (.keyError (invalidStateMsg s))
          else .ok { e with selected_state := some s,
                            style := if change_selected then d else e.style }
  | .null =>
      .ok { e with style := [],
                   selected_state := if change_selected then none else e.selected_state }
  | .sty d =>
      .ok { e with style := d,
                   selected_state := if change_selected then none else e.selected_state }

/-- The `for i in range(4)` loop that replaces `'auto'` rect entries by the
sprite's current rect components (used by `_construct` and
`StatedSprite.transition`); indices past 3 are untouched, and a rect shorter
than 4 raises `IndexError` at the loop. -/
def resolveAutoList (l : List PyVal) (r : PRect) : Except PyErr (List PyVal) :=
  if l.length < 4 then .error .indexError
  else .ok (l.mapIdx (fun i v =>
    if i < 4 then
      match v with
      | .str s => if s = "auto" then .int (r.get i) else .str s
      | v => v
    else v))

/-- `pygame.Rect(rect)` on a Python sequence: exactly four integer entries. -/
def toPRect : PyVal → Except PyErr PRect
  | .list [.int a, .int b, .int c, .int d] => .ok ⟨a, b, c, d⟩
  | _ => .error (.typeError "Argument must be rect style object")

/-- `StatedSprite._construct` from `core.py`: if the style carries a truthy
`rect`, resolve its `'auto'` entries against the current rect (unless
`check_rect_auto` is falsy) and replace `self.rect`; then regenerate the
sprite's surface from the style — modelled as recording the style in
`rendered` (the drawing reads `border_width`, `bg`, `fg`, text keys, etc.
without further sprite-state effects). -/
def SpriteState._construct (e : SpriteState) (style : PyDict) :
    Except PyErr SpriteState := do
  let e ← match aget style "rect" with
    | some rv =>
        if pyTruthy rv then do
          let rv ← if truthyD (aget style "check_rect_auto") true then do
              let l ← asList rv
              let l ← resolveAutoList l e.rect
              pure (PyVal.list l)
            else pure rv
          let r ← toPRect rv
          pure { e with rect := r }
        else pure e
    | none => pure e
  pure { e with rendered := some style }

/-- `StatedSprite.construct` from `core.py`: `change_style(state)`, then
`_construct(**self.style)` for a named state and `_construct(**style)`
otherwise. -/
def SpriteState.construct (e : SpriteState) (state : Option String)
    (style : PyDict) : Except PyErr SpriteState := do
  match state with
  | some s => do
      let e ← e.change_style (.name s) true
      e._construct e.style
  | none => do
      let e ← e.change_style .null true
      e._construct style

/-- `StatedSprite.__init__` from `core.py`: the keyword style becomes the
`'default'` state, the state is selected and constructed, `_transition` is
cleared and `self.style` becomes a copy of the default state. -/
def SpriteState.init (rect : PRect) (style : PyDict) : Except PyErr SpriteState := do
  let e0 : SpriteState :=
    { rect := rect, states := [("default", style)],
      selected_state := some "default", style := [],
      _transition := none, rendered := none }
  let e1 ← e0.construct (some "default") []
  pure { e1 with _transition := none, style := (aget e1.states "default").getD [] }

/-- The `state` argument of `StatedSprite.transition` (`str | Style`). -/
inductive TransTarget where
  | name (s : String)
  | sty (d : PyDict)

/-- The body of `StatedSprite.transition` after the target has been resolved
to the style dict `st0` (`_state` in the source) and the new `selected_state`
`sel`: the stored rect's `'auto'` entries are resolved against the current
rect and written back into `_state` together with `check_rect_auto = False`
(when the target was a named state, `_state` *is* `self.states[s]`, so the
write-back mutates the states table in place); `self.style['rect']` is set to
`[*self.rect]`; finally a fresh `Transition` replaces any previous one. -/
def SpriteState.transitionCore (e : SpriteState) (impl : String → PyFloat → PyFloat)
    (sel : Option String) (st0 : PyDict) (time : PyFloat) (style_keys : List String)
    (_all : Bool) (easing : String) : Except PyErr SpriteState := do
  let st ← match aget st0 "rect" with
    | some rv =>
        if pyTruthy rv then do
          let l ← asList rv
          let l ← if truthyD (aget st0 "check_rect_auto") true then
              resolveAutoList l e.rect
            else pure l
          pure (aset (aset st0 "rect" (.list l)) "check_rect_auto" (.bool false))
        else pure st0
    | none => pure st0
  let states := match sel with
    | some s => aset e.states s st
    | none => e.states
  let style := aset e.style "rect" (.list e.rect.toVals)
  let tr ← Transition.init impl time style st [style_keys] _all easing
  pure { e with states := states, selected_state := sel,
                style := style, _transition := some tr }

/-- `StatedSprite.transition` from `core.py`: a named target equal to the
selected state is a no-op unless `ignore_scheck`; an unknown or empty (falsy)
state raises `KeyError`; otherwise `transitionCore` runs with the resolved
target.  The keys tuple is forwarded to `Transition` as one positional
argument (`Transition(time, self.style, _state, style_keys, ...)`). -/
def SpriteState.transition (e : SpriteState) (impl : String → PyFloat → PyFloat)
    (state : TransTarget) (time : PyFloat) (style_keys : List String) (_all : Bool)
    (easing : String) (ignore_scheck : Bool) : Except PyErr SpriteState :=
  match state with
  | .name s =>
      if ¬ ignore_scheck ∧ e.selected_state = some s then .ok e
      else
        match aget e.states s with
        | none => .error (.keyError (invalidStateMsg s))
        | some d =>
            if d.isEmpty then .error (.keyError (invalidStateMsg s))
            else e.transitionCore impl (some s) d time style_keys _all easing
  | .sty d => e.transitionCore impl none d time style_keys _all easing

/-- `StatedSprite.update` from `core.py`: a finished transition is removed
and a final `_construct(**self.style)` runs; an unfinished one is ticked,
its style becomes `self.style` (via `change_style(·, False)`, keeping
`selected_state`) and is rendered.  (`Sprite.update` first dispatches a
null event through `self.Events`; the claim scenarios register no events,
so that loop body never runs.) -/
def SpriteState.update (e : SpriteState) (delta_time : PyFloat) :
    Except PyErr SpriteState := do
  match e._transition with
  | none => pure e
  | some tr =>
      if tr.finished then do
        let e1 : SpriteState := { e with _transition := none }
        e1._construct e1.style
      else do
        let tr' ← tr.tick delta_time
        let e1 : SpriteState := { e with _transition := some tr' }
        let e2 ← e1.change_style (.sty tr'.style) false
        e2._construct tr'.style

/-- `n` successive `update(delta_time)` calls. -/
def SpriteState.updateN (e : SpriteState) (delta_time : PyFloat) : ℕ → Except PyErr SpriteState
  | 0 => .ok e
  | n + 1 => e.update delta_time >>= (fun e1 => e1.updateN delta_time n)

/-- The `'default'` state of the end-to-end scenario: `bg = (0, 0, 0, 255)`. -/
def c1_default : PyDict := [("bg", .list [.int 0, .int 0, .int 0, .int 255])]

/-- The `'hover'` state of the end-to-end scenario: `bg = (255, 0, 0, 255)`. -/
def c1_hover : PyDict := [("bg", .list [.int 255, .int 0, .int 0, .int 255])]

/-- End-to-end scenario setup: a `StatedSprite` with the two states above and
rect `(0, 0, 50, 50)`, after `transition('hover', 10, easing='linear')`. -/
def c1_start : Except PyErr SpriteState := do
  let e ← SpriteState.init ⟨0, 0, 50, 50⟩ c1_default
  let e : SpriteState := { e with states := aset e.states "hover" c1_hover }
  e.transition EASING_IMPL0 (.name "hover") 10 [] false "linear" false

/-- The scenario after `n` calls of `update(2)`. -/
def c1_after (n : ℕ) : Except PyErr SpriteState :=
  c1_start >>= (fun e => e.updateN 2 n)

/-- C1: the claimed end state is wrong on the code.  After five `update(2)`
calls (elapsed exactly 10), `selected_state` is `'hover'` but the finished
transition is still attached (`update` removes it only at the start of the
*next* call), and the rendered `bg` is still `(0, 0, 0, 255)`: the keys tuple
is passed positionally into `Transition`'s `*style_keys`, so `set(*style_keys)`
is empty while the `elif not style_keys` default branch is skipped, leaving
`style_keys` empty and `bg` uninterpolated.  Even the sixth update, which does
remove the transition and re-construct, renders `bg = (0, 0, 0, 255)`. -/
theorem c1_endState_bug :
    (c1_after 5).toOption.map
        (fun e => (e.selected_state, e._transition.isSome, aget (e.rendered.getD []) "bg"))
      = some (some "hover", true, some (.list [.int 0, .int 0, .int 0, .int 255]))
  ∧ (c1_after 6).toOption.map
        (fun e => (e._transition.isSome, aget (e.rendered.getD []) "bg"))
      = some (false, some (.list [.int 0, .int 0, .int 0, .int 255])) := by
  constructor <;> rfl

/-- C2: `Transition.__init__` performs no validation of `time` at all: a
transition with `duration = 0` is constructed successfully (`finished` is
false, `time` is 0), and the very first `tick` then raises
`ZeroDivisionError` at `self.current_time / self.time`.  (For a strictly
positive duration wholly consumed by one tick, a single `tick` does finish
the transition: third conjunct, duration 10, delta 12.) -/
theorem c2_duration_not_validated :
    (Transition.init EASING_IMPL0 0 c1_default c1_hover [] false "linear").toOption.map
        (fun t => (t.finished, t.time))
      = some (false, 0)
  ∧ exErr (Transition.init EASING_IMPL0 0 c1_default c1_hover [] false "linear"
        >>= (fun t => t.tick 1))
      = some .zeroDivisionError
  ∧ (Transition.init EASING_IMPL0 10 c1_default c1_hover [] false "linear"
        >>= (fun t => t.tick 12)).toOption.map (fun t => t.finished)
      = some true := by
  exact ⟨rfl, rfl, rfl⟩

/-- Start style of the color-clamp scenario: `bg = (0, 0, 0, 0)`. -/
def c5_s1 : PyDict := [("bg", .list [.int 0, .int 0, .int 0, .int 0])]

/-- End style of the color-clamp scenario with channels outside `[0, 255]`:
`bg = (300, -50, 255, 255)`. -/
def c5_s2 : PyDict := [("bg", .list [.int 300, .int (-50), .int 255, .int 255])]

/-- `Transition(10, c5_s1, c5_s2, easing='linear')` (direct construction,
no positional keys, so the key set defaults to `style2`'s keys). -/
def c5_init : Except PyErr TransitionState :=
  Transition.init EASING_IMPL0 10 c5_s1 c5_s2 [] false "linear"

/-- C5 counterexample: constructing a `Transition` with `bg` endpoints
`(0,0,0,0)` and `(300,-50,255,255)` does *not* fail — construction succeeds
and stores the out-of-range channels untouched in `style2`. -/
theorem c5_out_of_range_accepted :
    c5_init.toOption.map (fun t => aget t.style2 "bg")
      = some (some (.list [.int 300, .int (-50), .int 255, .int 255])) := rfl

/-- C5 amended: construction with the out-of-range endpoints succeeds with
both endpoints stored unvalidated and unclamped (only symbolic `str`/`int`
colors are rejected, with `IncorrectColorError`); the `[0, 255]` clamp is
applied to the interpolated intermediate results during `tick` — at progress
`1/2` the interpolated `bg` is `(150, 0, 128, 128)`, with the `-25` of the
second channel clamped to `0`. -/
theorem c5_clamp_applies_to_interpolation_only :
    c5_init.toOption.map (fun t => (aget t.style1 "bg", aget t.style2 "bg"))
      = some (some (.list [.int 0, .int 0, .int 0, .int 0]),
              some (.list [.int 300, .int (-50), .int 255, .int 255]))
  ∧ exErr (Transition.init EASING_IMPL0 10 c5_s1 [("bg", .str "red")] [] false "linear")
      = some (.incorrectColorError colorErrMsg)
  ∧ (c5_init >>= (fun t => t.tick 5)).toOption.map (fun t => aget t.style "bg")
      = some (some (.list [.int 150, .int 0, .int 128, .int 128])) := by
  exact ⟨rfl, rfl, rfl⟩

/-- An `Except` bind returning `ok` factors through an `ok`. -/
theorem exBind_ok {α β : Type} {x : Except PyErr α} {f : α → Except PyErr β} {b : β}
    (h : x >>= f = .ok b) : ∃ a, x = .ok a ∧ f a = .ok b := by
  cases x with
  | error e => simp [Bind.bind, Except.bind] at h
  | ok a => exact ⟨a, rfl, by simpa [Bind.bind, Except.bind] using h⟩

/-- A single `tick` never resets `finished`: the only write is
`if current_time >= time: finished = True`. -/
theorem tick_keeps_finished {t : TransitionState} {d : PyFloat} {t' : TransitionState}
    (hfin : t.finished = true) (h : t.tick d = .ok t') : t'.finished = true := by
  unfold TransitionState.tick at h
  by_cases h0 : t.time.num = 0
  · simp [h0, throw, throwThe, MonadExceptOf.throw, Bind.bind, Except.bind] at h
  · simp [h0] at h
    obtain ⟨p, hp, h⟩ := exBind_ok h
    obtain ⟨st1, st⟩ := p
    simp [pure, Except.pure] at h
    subst h
    simp [hfin]

/-- C6: `finished` is monotonic across any sequence of `tick` calls (with any
`deltaTime` values, any easing function and any styles): once it is true it
stays true, because `tick` only ever assigns `finished = True` under
`current_time >= time` and never clears it. -/
theorem tick_finished_monotonic (t : TransitionState) (ds : List PyFloat)
    (t' : TransitionState) (hfin : t.finished = true)
    (h : tickSeq t ds = .ok t') : t'.finished = true := by
  induction ds generalizing t with
  | nil =>
      simp [tickSeq, List.foldlM, pure, Except.pure] at h
      simpa [← h] using hfin
  | cons d ds ih =>
      rw [tickSeq, List.foldlM] at h
      obtain ⟨t1, h1, h⟩ := exBind_ok h
      exact ih t1 (tick_keeps_finished hfin h1) h

/-- A finished transition used to witness monotonicity. -/
def c6_t0 : TransitionState :=
  { finished := true, time := 5, current_time := 9, easing_func := fun t => t,
    style_keys := [], style1 := [], style2 := [], style := [] }

/-- The witness transition after `tick(2)` twice. -/
def c6_t2 : TransitionState := { c6_t0 with current_time := 13 }

/-- Witness for C6 at a concrete finished transition and delta sequence. -/
theorem tick_finished_monotonic_witness :
    c6_t0.finished = true ∧ tickSeq c6_t0 [2, 2] = .ok c6_t2 ∧ c6_t2.finished = true :=
  ⟨rfl, rfl, tick_finished_monotonic c6_t0 [2, 2] c6_t2 rfl rfl⟩

/-- C7: `transition(s, d)` with `force` (the source's `ignore_scheck`) false
and `s` equal to the currently selected named state is a complete no-op:
the guard `if state == self.selected_state: return` fires before anything is
created or mutated, so the whole sprite state — including the active
transition and `selected_state` — is returned unchanged.  The result being
the unchanged state, an immediately repeated call is the same no-op. -/
theorem transition_same_state_noop (e : SpriteState) (impl : String → PyFloat → PyFloat)
    (s : String) (time : PyFloat) (keys : List String) (al : Bool) (easing : String)
    (h : e.selected_state = some s) :
    e.transition impl (.name s) time keys al easing false = .ok e := by
  unfold SpriteState.transition
  simp [h]

/-- A sprite sitting in its `'default'` state, used to witness the no-op. -/
def c7_e : SpriteState :=
  { rect := ⟨0, 0, 10, 10⟩, states := [("default", c1_default)],
    selected_state := some "default", style := [], _transition := none,
    rendered := none }

/-- Witness for C7 at a concrete sprite. -/
theorem transition_same_state_noop_witness :
    c7_e.selected_state = some "default" ∧
    c7_e.transition EASING_IMPL0 (.name "default") 7 [] false "linear" false = .ok c7_e :=
  ⟨rfl, transition_same_state_noop c7_e EASING_IMPL0 "default" 7 [] false "linear" rfl⟩

/-- An opaque `pygame.Event` (the dispatch logic never inspects it). -/
structure PyEvent where
  etype : ℤ

/-- A child sprite as seen by `GenericCombinedSprite.handle_event`: its rect
plus whatever other state its own `handle_event` reads or writes
(abstracted as `data`). -/
structure ChildSprite (σ : Type) where
  rect : PRect
  data : σ

/-- The per-child body of `GenericCombinedSprite.handle_event` from
`core.py`: save `rect = sprite.rect.copy()`, overwrite the child's rect
with container-absolute coordinates
`(self.rect.left + sprite.rect.left, self.rect.top + sprite.rect.top, w, h)`,
run the child's own `handle_event` (`h`), then restore `sprite.rect = rect`. -/
def dispatchChild {σ : Type} (h : ChildSprite σ → PyEvent → ChildSprite σ)
    (containerRect : PRect) (c : ChildSprite σ) (ev : PyEvent) : ChildSprite σ :=
  let rect := c.rect
  let c' := h { c with rect := ⟨containerRect.x + c.rect.x, containerRect.y + c.rect.y,
                                c.rect.w, c.rect.h⟩ } ev
  { c' with rect := rect }

/-- `GenericCombinedSprite.handle_event`: the loop over `self.values()`. -/
def combinedHandleEvent {σ : Type} (h : ChildSprite σ → PyEvent → ChildSprite σ)
    (containerRect : PRect) (children : List (ChildSprite σ)) (ev : PyEvent) :
    List (ChildSprite σ) :=
  children.map (fun c => dispatchChild h containerRect c ev)

/-- `pygame.Rect.collidepoint`: inside means left/top inclusive and
right/bottom exclusive.  The default `onhover` predicate of
`DEFAULT_EVENT_CHECKS` is `sprite.rect.collidepoint(mouse_pos)`. -/
def collidepoint (r : PRect) (px py : ℤ) : Bool :=
  decide (r.x ≤ px ∧ px < r.x + r.w ∧ r.y ≤ py ∧ py < r.y + r.h)

/-- C8: during composite dispatch every child's handler runs on the child
with its rect rewritten to container-absolute coordinates, and afterwards the
stored rect is restored to exactly the original local value, for every child
list, every handler and every event (first two conjuncts).  Concretely, a
child with local rect `(2,3,10,10)` in a composite at `(100,100)` is handed
the absolute rect `(102,103,10,10)`, on which the hover predicate sees the
absolute pointer `(108,106)` as inside, and after dispatch its stored rect is
`(2,3,10,10)` again (last three conjuncts). -/
theorem composite_event_translates_and_restores :
    (∀ (σ : Type) (h : ChildSprite σ → PyEvent → ChildSprite σ) (cr : PRect)
        (cs : List (ChildSprite σ)) (ev : PyEvent),
        (combinedHandleEvent h cr cs ev).map (fun c => c.rect) = cs.map (fun c => c.rect))
  ∧ (∀ (σ : Type) (h : ChildSprite σ → PyEvent → ChildSprite σ) (cr : PRect)
        (c : ChildSprite σ) (ev : PyEvent),
        dispatchChild h cr c ev =
          { h { c with rect := ⟨cr.x + c.rect.x, cr.y + c.rect.y, c.rect.w, c.rect.h⟩ } ev
              with rect := c.rect })
  ∧ (dispatchChild (σ := Unit) (fun c _ => c) ⟨100, 100, 400, 300⟩ ⟨⟨2, 3, 10, 10⟩, ()⟩ ⟨0⟩).rect
      = ⟨2, 3, 10, 10⟩
  ∧ collidepoint ⟨100 + 2, 100 + 3, 10, 10⟩ 108 106 = true
  ∧ collidepoint ⟨2, 3, 10, 10⟩ 108 106 = false := by
  refine ⟨?_, ?_, rfl, by decide, by decide⟩
  · intro σ h cr cs ev
    induction cs with
    | nil => rfl
    | cons c cs ih => simp [combinedHandleEvent, dispatchChild] at ih ⊢
  · intro σ h cr c ev
    rfl

/-- C9 counterexample: an unknown easing name fails at construction, but with
the builtin `KeyError("Invalid easing function: ...")` — not with a dedicated
`InvalidCurveError` value (the spec-modelled `PyErr.invalidCurveError`). -/
theorem unknown_easing_raises_keyerror_not_invalidcurve :
    exErr (Transition.init EASING_IMPL0 10 [] [] [] false "not_a_curve")
      = some (.keyError (invalidEasingMsg "not_a_curve"))
  ∧ exErr (Transition.init EASING_IMPL0 10 [] [] [] false "not_a_curve")
      ≠ some .invalidCurveError := by
  exact ⟨rfl, by decide⟩

/-- C9 amended: an easing name outside `EASING_FUNCTIONS` always fails at
construction with `KeyError("Invalid easing function: ...")`, whatever the
styles and key arguments; and for names in the table the easing argument
contributes no failure at all: two constructions differing only in their
(registered) easing name fail in exactly the same ways. -/
theorem easing_name_validated_at_construction :
    (∀ (impl : String → PyFloat → PyFloat) (time : PyFloat) (s1 s2 : PyDict)
        (ka : List (List String)) (al : Bool) (name : String),
        name ∉ EASING_NAMES →
        Transition.init impl time s1 s2 ka al name
          = .error (.keyError (invalidEasingMsg name)))
  ∧ (∀ (impl : String → PyFloat → PyFloat) (time : PyFloat) (s1 s2 : PyDict)
        (ka : List (List String)) (al : Bool) (name name' : String) (e : PyErr),
        name ∈ EASING_NAMES → name' ∈ EASING_NAMES →
        (Transition.init impl time s1 s2 ka al name = .error e ↔
         Transition.init impl time s1 s2 ka al name' = .error e)) := by
  constructor
  · intro impl time s1 s2 ka al name hname
    unfold Transition.init
    simp [hname, throw, throwThe, MonadExceptOf.throw]
  · intro impl time s1 s2 ka al name name' e h h'
    unfold Transition.init
    cases hs : Transition.initStyles s1 s2 ka al with
    | error err => simp [h, h', hs, Bind.bind, Except.bind]
    | ok p =>
        obtain ⟨keys, s1', s2'⟩ := p
        simp [h, h', hs, Bind.bind, Except.bind, pure, Except.pure]

/-- Witness for C9 amended: the unknown name `'not_a_curve'` fails with the
`KeyError`, and the registered names `'linear'` and `'sine_in'` fail
identically (here: neither fails with `ZeroDivisionError`). -/
theorem easing_name_validated_at_construction_witness :
    ("not_a_curve" ∉ EASING_NAMES
      ∧ Transition.init EASING_IMPL0 1 [] [] [] false "not_a_curve"
          = .error (.keyError (invalidEasingMsg "not_a_curve")))
  ∧ ("linear" ∈ EASING_NAMES ∧ "sine_in" ∈ EASING_NAMES
      ∧ (Transition.init EASING_IMPL0 1 [] [] [] false "linear"
            = .error .zeroDivisionError ↔
         Transition.init EASING_IMPL0 1 [] [] [] false "sine_in"
            = .error .zeroDivisionError)) :=
  ⟨⟨by decide,
    easing_name_validated_at_construction.1 EASING_IMPL0 1 [] [] [] false
      "not_a_curve" (by decide)⟩,
   ⟨by decide, by decide,
    easing_name_validated_at_construction.2 EASING_IMPL0 1 [] [] [] false
      "linear" "sine_in" .zeroDivisionError (by decide) (by decide)⟩⟩

/-- Writing a key into an association dict makes it readable. -/
theorem aget_aset {α : Type} (l : List (String × α)) (k : String) (v : α) :
    aget (aset l k v) k = some v := by
  induction l with
  | nil => simp [aget, aset]
  | cons p rest ih =>
      obtain ⟨k', v'⟩ := p
      by_cases h : k' = k <;> simp [aget, aset, h, ih]

/-- C10: when an actual transition to a named state `s` starts (the
same-state no-op guard does not fire) and the stored style of `s` carries a
truthy `rect` with `check_rect_auto` truthy (e.g. absent), the call mutates
the entity's states table in place: `_state` aliases `self.states[s]`, so
`states[s]['rect']` is overwritten with the resolved rect (each `'auto'`
entry replaced by the current rect component via the `range(4)` loop) and
`states[s]['check_rect_auto']` becomes `False` — hence any later `transition`
or `construct` of `s`, which branch on `check_rect_auto` with default `True`,
skip re-resolution and reuse the stored concrete rect. -/
theorem transition_resolves_stored_rect_in_place
    (e : SpriteState) (impl : String → PyFloat → PyFloat) (s : String) (st : PyDict)
    (r rr : List PyVal) (time : PyFloat) (keys : List String) (al : Bool)
    (easing : String) (force : Bool) (e' : SpriteState)
    (hsel : force = true ∨ e.selected_state ≠ some s)
    (hst : aget e.states s = some st)
    (hrect : aget st "rect" = some (.list r))
    (htru : pyTruthy (.list r) = true)
    (hauto : truthyD (aget st "check_rect_auto") true = true)
    (hres : resolveAutoList r e.rect = .ok rr)
    (hok : e.transition impl (.name s) time keys al easing force = .ok e') :
    aget e'.states s
      = some (aset (aset st "rect" (.list rr)) "check_rect_auto" (.bool false))
    ∧ truthyD (aget ((aget e'.states s).getD []) "check_rect_auto") true = false := by
  have hguard : ¬ (¬ force = true ∧ e.selected_state = some s) := by
    rcases hsel with h | h
    · simp [h]
    · intro hc
      exact h hc.2
  replace hok : (if ¬ force = true ∧ e.selected_state = some s then Except.ok e
      else match aget e.states s with
        | none => Except.error (PyErr.keyError (invalidStateMsg s))
        | some d =>
            if d.isEmpty then Except.error (PyErr.keyError (invalidStateMsg s))
            else e.transitionCore impl (some s) d time keys al easing) = .ok e' := hok
  rw [if_neg hguard, hst] at hok
  have hstne : st.isEmpty = false := by
    cases st with
    | nil => simp [aget] at hrect
    | cons a l => rfl
  simp [hstne] at hok
  unfold SpriteState.transitionCore at hok
  rw [hrect] at hok
  simp [htru, asList, hauto, hres, Bind.bind, Except.bind] at hok
  obtain ⟨tr, htr, hpure⟩ := exBind_ok (x := Transition.init impl time
      (aset e.style "rect" (.list e.rect.toVals))
      (aset (aset st "rect" (.list rr)) "check_rect_auto" (.bool false))
      [keys] al easing) (by exact hok)
  simp [pure, Except.pure] at hpure
  subst hpure
  refine ⟨by simp [aget_aset], ?_⟩
  simp [aget_aset, truthyD, pyTruthy]

/-- The stored rect of the witness state, with three `'auto'` entries. -/
def c10_r : List PyVal := [.str "auto", .int 10, .str "auto", .str "auto"]

/-- The witness target state `'big'`: `rect = ('auto', 10, 'auto', 'auto')`. -/
def c10_st : PyDict := [("rect", .list c10_r)]

/-- The rect after resolution against the current rect `(5, 5, 20, 20)`. -/
def c10_rr : List PyVal := [.int 5, .int 10, .int 20, .int 20]

/-- Witness entity for C10: current rect `(5, 5, 20, 20)`, sitting in
`'default'`, with the `'big'` state above registered. -/
def c10_e : SpriteState :=
  { rect := ⟨5, 5, 20, 20⟩,
    states := [("default", c1_default), ("big", c10_st)],
    selected_state := some "default",
    style := [("bg", .list [.int 0, .int 0, .int 0, .int 255])],
    _transition := none, rendered := none }

/-- `self.style` of the witness after `self.style['rect'] = [*self.rect]`. -/
def c10_style1 : PyDict :=
  [("bg", .list [.int 0, .int 0, .int 0, .int 255]),
   ("rect", .list [.int 5, .int 5, .int 20, .int 20])]

/-- `states['big']` after the in-place resolution. -/
def c10_st2 : PyDict := [("rect", .list c10_rr), ("check_rect_auto", .bool false)]

/-- The witness entity after `transition('big', 10, easing='linear')`. -/
def c10_e1 : SpriteState :=
  { rect := ⟨5, 5, 20, 20⟩,
    states := [("default", c1_default), ("big", c10_st2)],
    selected_state := some "big",
    style := c10_style1,
    _transition := some
      { finished := false, time := 10, current_time := 0,
        easing_func := EASING_IMPL0 "linear", style_keys := [],
        style1 := c10_style1, style2 := c10_st2, style := c10_style1 },
    rendered := none }

/-- Witness for C10 at the concrete entity above. -/
theorem transition_resolves_stored_rect_in_place_witness :
    (false = true ∨ c10_e.selected_state ≠ some "big")
  ∧ aget c10_e.states "big" = some c10_st
  ∧ aget c10_st "rect" = some (.list c10_r)
  ∧ pyTruthy (.list c10_r) = true
  ∧ truthyD (aget c10_st "check_rect_auto") true = true
  ∧ resolveAutoList c10_r c10_e.rect = .ok c10_rr
  ∧ c10_e.transition EASING_IMPL0 (.name "big") 10 [] false "linear" false = .ok c10_e1
  ∧ aget c10_e1.states "big"
      = some (aset (aset c10_st "rect" (.list c10_rr)) "check_rect_auto" (.bool false))
  ∧ truthyD (aget ((aget c10_e1.states "big").getD []) "check_rect_auto") true = false :=
  have h := transition_resolves_stored_rect_in_place c10_e EASING_IMPL0 "big" c10_st
    c10_r c10_rr 10 [] false "linear" false c10_e1
    (Or.inr (by decide)) rfl rfl rfl rfl rfl rfl
  ⟨Or.inr (by decide), rfl, rfl, rfl, rfl, rfl, rfl, h.1, h.2⟩

/-- C3: the circular easing functions do *not* clamp the argument of
`math.sqrt`: at progress values slightly above 1 — which `tick` produces
whenever `elapsed` overshoots `duration` (e.g. duration 10 ticked by 2 six
times gives `t = 1.2`) — `circular_in` evaluates `sqrt(1 - t*t)` with a
negative argument and raises a math domain error, as does
`circular_in_out` on its second branch (here at `t = 1.6`).  The source
itself marks this with `FIXME: math domain error`. -/
theorem circular_easing_domain_error :
    CircIn (6/5 : ℝ) = .error .domainError
  ∧ CircInOut (8/5 : ℝ) = .error .domainError := by
  constructor
  · unfold CircIn
    rw [if_pos (by norm_num)]
  · unfold CircInOut
    rw [if_neg (by norm_num), if_pos (by norm_num)]

/-- C4: the exponential easings violate the endpoint law.  `ExpoInOut`'s
second branch is `-pow(2, -10*t) - 1` where the classic curve needs
`(2 - pow(2, -10*t)) / 2` (the source marks it `FIXME: too large walues`):
its value at `t = 1` is `-(1 + 2^(-10)) = -1025/1024`, nowhere near 1, and
at the midpoint `t = 1/2` it jumps to `-2`.  (`ExpoIn` also misses `f(0)=0`
by exactly `2^(-10) = 1/1024`, the classic uncorrected Penner offset.) -/
theorem exponential_in_out_endpoint_bug :
    ExpoInOut 1 = -(1025/1024 : ℝ)
  ∧ ExpoInOut (1/2 : ℝ) = -2
  ∧ ExpoIn 0 = (1/1024 : ℝ) := by
  refine ⟨?_, ?_, ?_⟩
  · unfold ExpoInOut
    rw [if_neg (by norm_num)]
    rw [show (-10 * (2 * (1 : ℝ) - 1)) = ((-10 : ℤ) : ℝ) by norm_num,
        Real.rpow_intCast]
    norm_num
  · unfold ExpoInOut
    rw [if_neg (by norm_num)]
    rw [show (-10 * (2 * ((1 : ℝ)/2) - 1)) = 0 by norm_num, Real.rpow_zero]
    norm_num
  · unfold ExpoIn
    rw [show (10 * ((0 : ℝ) - 1)) = ((-10 : ℤ) : ℝ) by norm_num,
        Real.rpow_intCast]
    norm_num
